import Mathlib

/-!
Verification of the web-server skeleton in cmd/web/main.go.

The entry point (cmd/web/main.go) is the only Go source present; the
packages it imports (pkg/config, pkg/handlers, pkg/render) belong to the
same repository but are not available, so their small surface is modelled
from the spec, as marked on each definition.  The entry point itself, the
net/http DefaultServeMux dispatch it relies on, and the wiring order are
embedded faithfully from main.go.
-/

namespace BedAndBreakfast

/-- Modelled from the spec: a compiled template (pkg/render is missing from
the sources).  A template is a page-layout definition combined with static
content; executing it against the empty view-model produces its rendered
output, which is all the handlers ever do with it. -/
structure Template where
  rendered : String
deriving DecidableEq, Repr

/-- The template cache: a mapping from page identifier to compiled template
(Go type map[string]*template.Template), embedded as an association list. -/
abbrev TemplateCacheMap := List (String × Template)

/-- Modelled from the spec: config.AppConfig (pkg/config is missing from the
sources), a process-wide struct holding the template cache and a boolean
flag selecting cached vs. on-demand template parsing. -/
structure AppConfig where
  TemplateCache : TemplateCacheMap
  UseCache : Bool
deriving DecidableEq, Repr

/-- Modelled from the spec: a page-template source file in the known template
directory, with its name (page identifier), its static content, and whether
it parses (malformed syntax or a missing layout makes it fail). -/
structure TemplateFile where
  name : String
  content : String
  wellFormed : Bool
deriving DecidableEq, Repr

/-- Modelled from the spec: render.CreateTemplateCache (pkg/render is missing
from the sources).  It scans the known template directory, parses each page
template, and returns the mapping from page name to compiled template, or a
failure if any template fails to parse. -/
def CreateTemplateCache (files : List TemplateFile) : Except String TemplateCacheMap :=
  if files.all (fun f => f.wellFormed) then
    .ok (files.map (fun f => (f.name, ⟨f.content⟩)))
  else
    .error "template failed to parse"

/-- Modelled from the spec: the expected home-page marker content. -/
def homePageMarker : String := "This is the home page"

/-- Modelled from the spec: the expected about-page marker content. -/
def aboutPageMarker : String := "This is the about page"

/-- Modelled from the spec: the fixed set of known page files in the template
directory, corresponding exactly to the cache keys \x7b"home", "about"\x7d. -/
def templateDir : List TemplateFile :=
  [⟨"home", homePageMarker, true⟩, ⟨"about", aboutPageMarker, true⟩]

/-- An HTTP response as the handlers produce it: a status code and a body. -/
structure Response where
  status : Nat
  body : String
deriving DecidableEq, Repr

/-- Modelled from the spec: rendering a named page template.  Under the
caching configuration the startup-built cache is consulted; otherwise the
templates are re-parsed from the on-disk directory for this request
(live-reload).  The rendered output is written with a success status; a
lookup for a page absent from the cache is a programming error with no
specified response, embedded as no response. -/
def RenderTemplate (app : AppConfig) (disk : List TemplateFile)
    (name : String) : Option Response :=
  let tc : TemplateCacheMap :=
    if app.UseCache then
      app.TemplateCache
    else
      match CreateTemplateCache disk with
      | .ok c => c
      | .error _ => []
  match tc.lookup name with
  | some t => some { status := 200, body := t.rendered }
  | none => none

/-- Modelled from the spec: handlers.Repo.Home renders the "home" page. -/
def Home (app : AppConfig) (disk : List TemplateFile) : Option Response :=
  RenderTemplate app disk "home"

/-- Modelled from the spec: handlers.Repo.About renders the "about" page. -/
def About (app : AppConfig) (disk : List TemplateFile) : Option Response :=
  RenderTemplate app disk "about"

/-- The two handlers main.go binds to routes. -/
inductive HandlerId where
  | home
  | about
deriving DecidableEq, Repr

/-- The template key each routed handler renders. -/
def handlerTemplateKey : HandlerId → String
  | .home => "home"
  | .about => "about"

/-- Run the handler bound to a route. -/
def runHandler (app : AppConfig) (disk : List TemplateFile) :
    HandlerId → Option Response
  | .home => Home app disk
  | .about => About app disk

/-- Boolean test that the first character list is an initial segment of the
second, used to embed the prefix test of net/http pattern matching. -/
def charsHavePre : List Char → List Char → Bool
  | [], _ => true
  | _ :: _, [] => false
  | a :: as, b :: bs => a == b && charsHavePre as bs

/-- net/http ServeMux pattern matching (Go pathMatch): the empty pattern
matches nothing; a pattern ending in a slash matches every path having it as
an initial segment (a rooted subtree); any other pattern matches only the
identical path. -/
def patternMatches (pat path : String) : Bool :=
  match pat.data.getLast? with
  | none => false
  | some c =>
    if c = '/' then charsHavePre pat.data path.data
    else pat == path

/-- One step of the ServeMux search for the longest matching pattern. -/
def betterMatch (path : String) (best : Option (String × HandlerId))
    (r : String × HandlerId) : Option (String × HandlerId) :=
  if patternMatches r.1 path then
    match best with
    | none => some r
    | some b => if b.1.length < r.1.length then some r else some b
  else
    best

/-- net/http ServeMux dispatch over a registration table: the registered
pattern matching the path with the greatest length wins. -/
def resolveRoute (routes : List (String × HandlerId)) (path : String) :
    Option (String × HandlerId) :=
  routes.foldl (betterMatch path) none

/-- The response the ServeMux NotFoundHandler writes when no pattern
matches. -/
def notFoundResponse : Response := { status := 404, body := "404 page not found" }

/-- Split a character list into the segments between slash separators,
accumulating the current segment in reverse. -/
def splitSegsAux : List Char → List Char → List (List Char)
  | [], cur => [cur.reverse]
  | c :: cs, cur =>
    if c = '/' then cur.reverse :: splitSegsAux cs []
    else splitSegsAux cs (c :: cur)

/-- The segment loop of Go path.Clean on a rooted path: empty segments and
"." are dropped, ".." pops the previous segment (or nothing at the root),
and every other segment is kept. -/
def cleanLoop : List (List Char) → List (List Char) → List (List Char)
  | acc, [] => acc.reverse
  | acc, s :: rest =>
    if s = [] ∨ s = ['.'] then cleanLoop acc rest
    else if s = ['.', '.'] then cleanLoop (acc.drop 1) rest
    else cleanLoop (s :: acc) rest

/-- Rejoin cleaned segments with slash separators. -/
def joinSegs : List (List Char) → List Char
  | [] => []
  | [s] => s
  | s :: rest => s ++ '/' :: joinSegs rest

/-- Go path.Clean on a rooted path: lexical elimination of empty, "." and
".." segments; the result is "/" alone or "/" followed by the remaining
segments, with no trailing slash. -/
def pathClean (p : String) : String :=
  match cleanLoop [] (splitSegsAux p.data []) with
  | [] => "/"
  | cleaned => String.mk ('/' :: joinSegs cleaned)

/-- Go net/http cleanPath, as ServeMux.Handler applies it to the request
path before matching: the empty path becomes "/", a missing leading slash is
added, the path is cleaned, and a trailing slash that Clean removed is put
back unless the result is the root. -/
def cleanPath (p : String) : String :=
  if p = "" then "/"
  else
    let p' := if charsHavePre "/".data p.data then p else "/" ++ p
    let np := pathClean p'
    if p'.data.getLast? = some '/' ∧ np ≠ "/" then np ++ "/" else np

/-- Go ServeMux.redirectToPathSlash: a cleaned path with no handler of its
own whose subtree pattern path ++ "/" is registered is redirected to the
subtree root. -/
def shouldRedirectToPathSlash (routes : List (String × HandlerId))
    (p : String) : Bool :=
  !(routes.any (fun r => r.1 == p)) && routes.any (fun r => r.1 == p ++ "/")

/-- The response http.RedirectHandler writes for a canonicalizing redirect:
status 301 Moved Permanently; the body field records the redirect target
standing for the Location header. -/
def movedPermanently (target : String) : Response :=
  { status := 301, body := target }

/-- Serving one request, following Go ServeMux.Handler: the request path is
cleaned first; a cleaned path whose subtree pattern is registered while the
path itself is not is answered with a 301 redirect to path ++ "/"; a path
that cleaning changed is answered with a 301 redirect to its canonical form;
otherwise the longest matching registered pattern's handler runs, or the 404
handler when no pattern matches. -/
def handleRequest (app : AppConfig) (disk : List TemplateFile)
    (routes : List (String × HandlerId)) (path : String) : Option Response :=
  let p := cleanPath path
  if shouldRedirectToPathSlash routes p then
    some (movedPermanently (p ++ "/"))
  else if p ≠ path then
    some (movedPermanently p)
  else
    match resolveRoute routes path with
    | some r => runHandler app disk r.2
    | none => some notFoundResponse

/-- An HTTP request path always begins with a slash. -/
def isHTTPPath (p : String) : Bool := charsHavePre "/".data p.data

/-- The hardcoded listen address of main.go: const portNumber = ":8080". -/
def portNumber : String := ":8080"

/-- The observable actions main performs, in order, embedded from
cmd/web/main.go. -/
inductive MainEvent where
  | createTemplateCache
  | logFatal (msg : String)
  | setTemplateCache
  | setUseCache (b : Bool)
  | newRepo
  | newHandlers
  | newTemplates
  | handleFunc (pat : String) (h : HandlerId)
  | printLine (s : String)
  | listenAndServe (addr : String)
deriving DecidableEq, Repr

/-- How the main process ends, embedded from cmd/web/main.go.  log.Fatal
terminates the process; on a successful listen, http.ListenAndServe blocks
forever; if the listener fails, it returns an error value that main
discards, and main returns normally. -/
inductive MainOutcome where
  | fatalExit (msg : String)
  | servesForever (app : AppConfig) (routes : List (String × HandlerId))
  | returnsNormally (app : AppConfig) (routes : List (String × HandlerId))
      (discardedErr : String)
deriving DecidableEq, Repr

/-- The route registrations main.go performs on the DefaultServeMux:
http.HandleFunc("/", handlers.Repo.Home) then
http.HandleFunc("/about", handlers.Repo.About). -/
def mainRoutes : List (String × HandlerId) :=
  [("/", HandlerId.home), ("/about", HandlerId.about)]

/-- The trace of main, embedded statement by statement from cmd/web/main.go.
The disk parameter is the template directory CreateTemplateCache reads; the
serveErr parameter is the error value http.ListenAndServe eventually returns
(none while it blocks serving), which main.go never consults. -/
def mainTrace (disk : List TemplateFile) (serveErr : Option String) :
    List MainEvent :=
  match CreateTemplateCache disk with
  | .error e =>
    [MainEvent.createTemplateCache,
     MainEvent.logFatal ("cannot create template cache " ++ e)]
  | .ok _ =>
    [MainEvent.createTemplateCache,
     MainEvent.setTemplateCache,
     MainEvent.setUseCache true,
     MainEvent.newRepo,
     MainEvent.newHandlers,
     MainEvent.newTemplates,
     MainEvent.handleFunc "/" HandlerId.home,
     MainEvent.handleFunc "/about" HandlerId.about,
     MainEvent.printLine ("Starting application on port " ++ portNumber),
     MainEvent.listenAndServe portNumber]

/-- The final outcome of main, embedded from cmd/web/main.go: a fatal exit
when the template cache cannot be built, otherwise the configured
application serves on the registered routes; the value returned by
http.ListenAndServe is discarded, so a listener failure still ends in a
normal return with no further action. -/
def mainOutcome (disk : List TemplateFile) (serveErr : Option String) :
    MainOutcome :=
  match CreateTemplateCache disk with
  | .error e => MainOutcome.fatalExit ("cannot create template cache " ++ e)
  | .ok tc =>
    let app : AppConfig := { TemplateCache := tc, UseCache := true }
    match serveErr with
    | none => MainOutcome.servesForever app mainRoutes
    | some e => MainOutcome.returnsNormally app mainRoutes e

/-- The application config and route table in effect while serving, when
startup succeeds. -/
def mainServing (disk : List TemplateFile) :
    Option (AppConfig × List (String × HandlerId)) :=
  match CreateTemplateCache disk with
  | .error _ => none
  | .ok tc => some ({ TemplateCache := tc, UseCache := true }, mainRoutes)

/-- Modelled from the spec: the second main-function variant (not among the
sources), which removes template-cache construction and its error checking
altogether and silently proceeds to register the two routes and serve. -/
def mainVariant2Trace (serveErr : Option String) : List MainEvent :=
  [MainEvent.handleFunc "/" HandlerId.home,
   MainEvent.handleFunc "/about" HandlerId.about,
   MainEvent.printLine ("Starting application on port " ++ portNumber),
   MainEvent.listenAndServe portNumber]

/-- Serving a sequence of requests one after another, threading the
application config through so that any mutation of it while serving would
be visible in the final config. -/
def serveMany (app : AppConfig) (disk : List TemplateFile)
    (routes : List (String × HandlerId)) :
    List String → AppConfig × List (Option Response)
  | [] => (app, [])
  | p :: ps =>
    let resp := handleRequest app disk routes p
    let rest := serveMany app disk routes ps
    (rest.1, resp :: rest.2)

/-- The concrete application config built by a successful startup over the
repository template directory; proved below to be what mainServing yields. -/
def homeAboutApp : AppConfig :=
  { TemplateCache := [("home", ⟨homePageMarker⟩), ("about", ⟨aboutPageMarker⟩)],
    UseCache := true }

/-- A body contains a marker when the marker occurs in it verbatim. -/
def bodyContains (body marker : String) : Prop :=
  ∃ pre post, body = pre ++ marker ++ post

lemma betterMatch_cases (path : String) (best : Option (String × HandlerId))
    (r : String × HandlerId) :
    betterMatch path best r = best ∨ betterMatch path best r = some r := by
  unfold betterMatch
  cases h : patternMatches r.1 path with
  | false => simp
  | true =>
    cases best with
    | none => simp
    | some b =>
      by_cases hl : b.1.length < r.1.length <;> simp [hl]

/-- C1 counterexample: a GET request for the unregistered path
"/unknown-path" is not answered with 404; under the startup configuration it
yields status 200 with the home page, because the pattern "/" registered by
main matches every path. -/
theorem c1_unknown_path_returns_home_not_404 :
    mainServing templateDir = some (homeAboutApp, mainRoutes) ∧
    handleRequest homeAboutApp templateDir mainRoutes "/unknown-path" =
      some { status := 200, body := homePageMarker } ∧
    (handleRequest homeAboutApp templateDir mainRoutes "/unknown-path").map
      Response.status ≠ some 404 := by
  refine ⟨by decide, by decide, by decide⟩

/-- C1 amended: a GET request for the unregistered path "/unknown-path" is
not answered with 404: the path is already canonical, so no redirect fires,
the catch-all pattern "/" registered by main matches it, and the dispatched
Home handler answers status 200 with the home page. -/
theorem c1_amended_unknown_path_served_by_home :
    mainServing templateDir = some (homeAboutApp, mainRoutes) ∧
    cleanPath "/unknown-path" = "/unknown-path" ∧
    shouldRedirectToPathSlash mainRoutes "/unknown-path" = false ∧
    resolveRoute mainRoutes "/unknown-path" = some ("/", HandlerId.home) ∧
    handleRequest homeAboutApp templateDir mainRoutes "/unknown-path" =
      some { status := 200, body := homePageMarker } := by
  refine ⟨by decide, by decide, by decide, by decide, by decide⟩

/-- C2: if template-cache construction at startup fails, main terminates
fatally before serving: the trace stops at the log.Fatal call, no route is
ever registered, the listener is never started, and no serving state
exists. -/
theorem c2_template_error_is_fatal (disk : List TemplateFile)
    (serveErr : Option String) (e : String)
    (h : CreateTemplateCache disk = .error e) :
    mainOutcome disk serveErr =
      MainOutcome.fatalExit ("cannot create template cache " ++ e) ∧
    mainTrace disk serveErr =
      [MainEvent.createTemplateCache,
       MainEvent.logFatal ("cannot create template cache " ++ e)] ∧
    (∀ pat hid, MainEvent.handleFunc pat hid ∉ mainTrace disk serveErr) ∧
    (∀ addr, MainEvent.listenAndServe addr ∉ mainTrace disk serveErr) ∧
    mainServing disk = none := by
  refine ⟨?_, ?_, ?_, ?_, ?_⟩ <;>
    simp [mainOutcome, mainTrace, mainServing, h]

/-- C2 witness: a template directory holding one malformed template makes
startup fail fatally. -/
theorem c2_witness :
    mainOutcome [⟨"home", "broken", false⟩] none =
      MainOutcome.fatalExit
        ("cannot create template cache " ++ "template failed to parse") ∧
    mainTrace [⟨"home", "broken", false⟩] none =
      [MainEvent.createTemplateCache,
       MainEvent.logFatal
         ("cannot create template cache " ++ "template failed to parse")] ∧
    (∀ pat hid,
      MainEvent.handleFunc pat hid ∉ mainTrace [⟨"home", "broken", false⟩] none) ∧
    (∀ addr,
      MainEvent.listenAndServe addr ∉ mainTrace [⟨"home", "broken", false⟩] none) ∧
    mainServing [⟨"home", "broken", false⟩] = none :=
  c2_template_error_is_fatal [⟨"home", "broken", false⟩] none
    "template failed to parse" rfl

/-- C3: on successful startup main registers exactly the two routes "/" to
Home and "/about" to About, binds the hardcoded port ":8080", and serves
indefinitely: while the listener runs the outcome is servesForever, and the
listenAndServe call is the last event of the trace, with nothing after
it. -/
theorem c3_two_routes_fixed_port_serves (disk : List TemplateFile)
    (serveErr : Option String) (tc : TemplateCacheMap)
    (h : CreateTemplateCache disk = .ok tc) :
    mainServing disk =
      some ({ TemplateCache := tc, UseCache := true }, mainRoutes) ∧
    mainRoutes = [("/", HandlerId.home), ("/about", HandlerId.about)] ∧
    portNumber = ":8080" ∧
    mainOutcome disk none =
      MainOutcome.servesForever { TemplateCache := tc, UseCache := true }
        mainRoutes ∧
    (mainTrace disk serveErr).getLast? =
      some (MainEvent.listenAndServe portNumber) := by
  refine ⟨?_, rfl, rfl, ?_, ?_⟩ <;>
    simp [mainServing, mainOutcome, mainTrace, h]

/-- C3 witness at the repository template directory. -/
theorem c3_witness :
    mainServing templateDir =
      some ({ TemplateCache := homeAboutApp.TemplateCache, UseCache := true },
        mainRoutes) ∧
    mainRoutes = [("/", HandlerId.home), ("/about", HandlerId.about)] ∧
    portNumber = ":8080" ∧
    mainOutcome templateDir none =
      MainOutcome.servesForever
        { TemplateCache := homeAboutApp.TemplateCache, UseCache := true }
        mainRoutes ∧
    (mainTrace templateDir none).getLast? =
      some (MainEvent.listenAndServe portNumber) :=
  c3_two_routes_fixed_port_serves templateDir none homeAboutApp.TemplateCache
    rfl

/-- C4: under the configuration a successful startup produces, GET "/"
returns status 200 with a body containing the home-page marker, and GET
"/about" returns status 200 with a body containing the about-page
marker. -/
theorem c4_home_about_markers (app : AppConfig)
    (routes : List (String × HandlerId))
    (h : mainServing templateDir = some (app, routes)) :
    (∃ r, handleRequest app templateDir routes "/" = some r ∧
      r.status = 200 ∧ bodyContains r.body homePageMarker) ∧
    (∃ r, handleRequest app templateDir routes "/about" = some r ∧
      r.status = 200 ∧ bodyContains r.body aboutPageMarker) := by
  have he : mainServing templateDir = some (homeAboutApp, mainRoutes) := rfl
  rw [he] at h
  simp only [Option.some.injEq, Prod.mk.injEq] at h
  obtain ⟨h1, h2⟩ := h
  subst h1
  subst h2
  refine ⟨⟨{ status := 200, body := homePageMarker }, by decide, rfl,
      "", "", by simp⟩,
    ⟨{ status := 200, body := aboutPageMarker }, by decide, rfl,
      "", "", by simp⟩⟩

/-- C4 witness at the configuration a successful startup produces. -/
theorem c4_witness :
    (∃ r, handleRequest homeAboutApp templateDir mainRoutes "/" = some r ∧
      r.status = 200 ∧ bodyContains r.body homePageMarker) ∧
    (∃ r, handleRequest homeAboutApp templateDir mainRoutes "/about" = some r ∧
      r.status = 200 ∧ bodyContains r.body aboutPageMarker) :=
  c4_home_about_markers homeAboutApp mainRoutes rfl

/-- C5: under the cached configuration the Home handler's output, and hence
the response body of GET "/", is a function of the startup-built cache
alone: two runs against the same config produce byte-identical output even
if the on-disk template directory differs between the runs. -/
theorem c5_cached_home_idempotent (app : AppConfig)
    (d₁ d₂ : List TemplateFile) (h : app.UseCache = true) :
    Home app d₁ = Home app d₂ ∧
    handleRequest app d₁ mainRoutes "/" = handleRequest app d₂ mainRoutes "/" := by
  have hh : Home app d₁ = Home app d₂ := by
    simp [Home, RenderTemplate, h]
  refine ⟨hh, ?_⟩
  have hstep : ∀ d, handleRequest app d mainRoutes "/" = Home app d :=
    fun d => rfl
  rw [hstep d₁, hstep d₂]
  exact hh

/-- C5 witness: the startup config renders "/" identically over the
repository template directory and over an emptied directory. -/
theorem c5_witness :
    Home homeAboutApp templateDir = Home homeAboutApp [] ∧
    handleRequest homeAboutApp templateDir mainRoutes "/" =
      handleRequest homeAboutApp [] mainRoutes "/" :=
  c5_cached_home_idempotent homeAboutApp templateDir [] rfl

/-- C6: the template cache built at startup has exactly the keys "home" and
"about", and every handler the registered routes can dispatch to looks up
one of those two keys only. -/
theorem c6_cache_keys_exact (path : String) (r : String × HandlerId)
    (h : resolveRoute mainRoutes path = some r) :
    (CreateTemplateCache templateDir).map (fun tc => tc.map Prod.fst) =
      .ok ["home", "about"] ∧
    handlerTemplateKey r.2 ∈ (["home", "about"] : List String) := by
  refine ⟨rfl, ?_⟩
  have h1 := betterMatch_cases path none ("/", HandlerId.home)
  have h2 := betterMatch_cases path
    (betterMatch path none ("/", HandlerId.home)) ("/about", HandlerId.about)
  unfold resolveRoute mainRoutes at h
  simp only [List.foldl] at h
  rcases h2 with h2 | h2
  · rw [h2] at h
    rcases h1 with h1 | h1
    · rw [h1] at h
      exact absurd h (by simp)
    · rw [h1] at h
      obtain h3 := Option.some.inj h
      subst h3
      decide
  · rw [h2] at h
    obtain h3 := Option.some.inj h
    subst h3
    decide

/-- C6 witness at the path "/". -/
theorem c6_witness :
    (CreateTemplateCache templateDir).map (fun tc => tc.map Prod.fst) =
      .ok ["home", "about"] ∧
    handlerTemplateKey (("/", HandlerId.home) : String × HandlerId).2 ∈
      (["home", "about"] : List String) :=
  c6_cache_keys_exact "/" ("/", HandlerId.home) rfl

/-- C7: under the caching configuration the template cache is built exactly
once, at process start, and serving any sequence of requests leaves the
application config, and with it the cache mapping, unchanged. -/
theorem c7_cache_once_immutable (disk : List TemplateFile)
    (serveErr : Option String) (tc : TemplateCacheMap) (ps : List String)
    (h : CreateTemplateCache disk = .ok tc) :
    (mainTrace disk serveErr).count MainEvent.createTemplateCache = 1 ∧
    (serveMany { TemplateCache := tc, UseCache := true } disk mainRoutes ps).1 =
      { TemplateCache := tc, UseCache := true } := by
  constructor
  · have htr : mainTrace disk serveErr =
        [MainEvent.createTemplateCache,
         MainEvent.setTemplateCache,
         MainEvent.setUseCache true,
         MainEvent.newRepo,
         MainEvent.newHandlers,
         MainEvent.newTemplates,
         MainEvent.handleFunc "/" HandlerId.home,
         MainEvent.handleFunc "/about" HandlerId.about,
         MainEvent.printLine ("Starting application on port " ++ portNumber),
         MainEvent.listenAndServe portNumber] := by
      unfold mainTrace
      rw [h]
    rw [htr]
    decide
  · induction ps with
    | nil => rfl
    | cons p ps ih => simp [serveMany, ih]

/-- C7 witness at the repository template directory over three requests. -/
theorem c7_witness :
    (mainTrace templateDir none).count MainEvent.createTemplateCache = 1 ∧
    (serveMany { TemplateCache := homeAboutApp.TemplateCache, UseCache := true }
      templateDir mainRoutes ["/", "/about", "/unknown-path"]).1 =
      { TemplateCache := homeAboutApp.TemplateCache, UseCache := true } :=
  c7_cache_once_immutable templateDir none homeAboutApp.TemplateCache
    ["/", "/about", "/unknown-path"] rfl

/-- C8: the second main-function variant registers the two routes and starts
the listener without ever constructing the template cache or checking its
result: its trace has no cache-construction and no fatal-logging event, yet
registers both routes and serves. -/
theorem c8_variant_serves_without_check (serveErr : Option String) :
    MainEvent.createTemplateCache ∉ mainVariant2Trace serveErr ∧
    (∀ m, MainEvent.logFatal m ∉ mainVariant2Trace serveErr) ∧
    MainEvent.handleFunc "/" HandlerId.home ∈ mainVariant2Trace serveErr ∧
    MainEvent.handleFunc "/about" HandlerId.about ∈ mainVariant2Trace serveErr ∧
    MainEvent.listenAndServe portNumber ∈ mainVariant2Trace serveErr := by
  have htr : mainVariant2Trace serveErr =
      [MainEvent.handleFunc "/" HandlerId.home,
       MainEvent.handleFunc "/about" HandlerId.about,
       MainEvent.printLine ("Starting application on port " ++ portNumber),
       MainEvent.listenAndServe portNumber] := rfl
  refine ⟨?_, ?_, ?_, ?_, ?_⟩
  · rw [htr]; decide
  · intro m; rw [htr]; simp
  · rw [htr]; decide
  · rw [htr]; decide
  · rw [htr]; decide

/-- C9: when the listener fails, main discards the error value returned by
http.ListenAndServe and returns normally: the outcome is a normal return
carrying the discarded error, nothing is logged about it (the trace holds no
logFatal event), and the trace is identical to the one where the listener
never failed. -/
theorem c9_listener_error_ignored (disk : List TemplateFile)
    (tc : TemplateCacheMap) (e : String)
    (h : CreateTemplateCache disk = .ok tc) :
    mainOutcome disk (some e) =
      MainOutcome.returnsNormally { TemplateCache := tc, UseCache := true }
        mainRoutes e ∧
    (∀ m, MainEvent.logFatal m ∉ mainTrace disk (some e)) ∧
    mainTrace disk (some e) = mainTrace disk none := by
  refine ⟨?_, ?_, ?_⟩ <;> simp [mainOutcome, mainTrace, h]

/-- C9 witness: the port already being in use is discarded silently. -/
theorem c9_witness :
    mainOutcome templateDir (some "listen tcp :8080: address already in use") =
      MainOutcome.returnsNormally
        { TemplateCache := homeAboutApp.TemplateCache, UseCache := true }
        mainRoutes "listen tcp :8080: address already in use" ∧
    (∀ m, MainEvent.logFatal m ∉
      mainTrace templateDir (some "listen tcp :8080: address already in use")) ∧
    mainTrace templateDir (some "listen tcp :8080: address already in use") =
      mainTrace templateDir none :=
  c9_listener_error_ignored templateDir homeAboutApp.TemplateCache
    "listen tcp :8080: address already in use" rfl

/-- C10: initialisation strictly precedes exposure: in the successful-startup
trace the cache is stored, UseCache is set to true, and the repository,
handlers and render package are initialised strictly before either route is
registered, and both registrations happen strictly before the listener
starts. -/
theorem c10_init_precedes_exposure (disk : List TemplateFile)
    (serveErr : Option String) (tc : TemplateCacheMap)
    (h : CreateTemplateCache disk = .ok tc) :
    MainEvent.setTemplateCache ∈ mainTrace disk serveErr ∧
    MainEvent.setUseCache true ∈ mainTrace disk serveErr ∧
    MainEvent.newRepo ∈ mainTrace disk serveErr ∧
    MainEvent.newHandlers ∈ mainTrace disk serveErr ∧
    MainEvent.newTemplates ∈ mainTrace disk serveErr ∧
    (mainTrace disk serveErr).indexOf MainEvent.setTemplateCache <
      (mainTrace disk serveErr).indexOf (MainEvent.handleFunc "/" HandlerId.home) ∧
    (mainTrace disk serveErr).indexOf (MainEvent.setUseCache true) <
      (mainTrace disk serveErr).indexOf (MainEvent.handleFunc "/" HandlerId.home) ∧
    (mainTrace disk serveErr).indexOf MainEvent.newRepo <
      (mainTrace disk serveErr).indexOf (MainEvent.handleFunc "/" HandlerId.home) ∧
    (mainTrace disk serveErr).indexOf MainEvent.newHandlers <
      (mainTrace disk serveErr).indexOf (MainEvent.handleFunc "/" HandlerId.home) ∧
    (mainTrace disk serveErr).indexOf MainEvent.newTemplates <
      (mainTrace disk serveErr).indexOf (MainEvent.handleFunc "/" HandlerId.home) ∧
    (mainTrace disk serveErr).indexOf (MainEvent.handleFunc "/" HandlerId.home) <
      (mainTrace disk serveErr).indexOf (MainEvent.listenAndServe portNumber) ∧
    (mainTrace disk serveErr).indexOf (MainEvent.handleFunc "/about" HandlerId.about) <
      (mainTrace disk serveErr).indexOf (MainEvent.listenAndServe portNumber) := by
  have htr : mainTrace disk serveErr =
      [MainEvent.createTemplateCache,
       MainEvent.setTemplateCache,
       MainEvent.setUseCache true,
       MainEvent.newRepo,
       MainEvent.newHandlers,
       MainEvent.newTemplates,
       MainEvent.handleFunc "/" HandlerId.home,
       MainEvent.handleFunc "/about" HandlerId.about,
       MainEvent.printLine ("Starting application on port " ++ portNumber),
       MainEvent.listenAndServe portNumber] := by
    unfold mainTrace
    rw [h]
  simp only [htr]
  decide

/-- C10 witness at the repository template directory. -/
theorem c10_witness :
    MainEvent.setTemplateCache ∈ mainTrace templateDir none ∧
    MainEvent.setUseCache true ∈ mainTrace templateDir none ∧
    MainEvent.newRepo ∈ mainTrace templateDir none ∧
    MainEvent.newHandlers ∈ mainTrace templateDir none ∧
    MainEvent.newTemplates ∈ mainTrace templateDir none ∧
    (mainTrace templateDir none).indexOf MainEvent.setTemplateCache <
      (mainTrace templateDir none).indexOf (MainEvent.handleFunc "/" HandlerId.home) ∧
    (mainTrace templateDir none).indexOf (MainEvent.setUseCache true) <
      (mainTrace templateDir none).indexOf (MainEvent.handleFunc "/" HandlerId.home) ∧
    (mainTrace templateDir none).indexOf MainEvent.newRepo <
      (mainTrace templateDir none).indexOf (MainEvent.handleFunc "/" HandlerId.home) ∧
    (mainTrace templateDir none).indexOf MainEvent.newHandlers <
      (mainTrace templateDir none).indexOf (MainEvent.handleFunc "/" HandlerId.home) ∧
    (mainTrace templateDir none).indexOf MainEvent.newTemplates <
      (mainTrace templateDir none).indexOf (MainEvent.handleFunc "/" HandlerId.home) ∧
    (mainTrace templateDir none).indexOf (MainEvent.handleFunc "/" HandlerId.home) <
      (mainTrace templateDir none).indexOf (MainEvent.listenAndServe portNumber) ∧
    (mainTrace templateDir none).indexOf (MainEvent.handleFunc "/about" HandlerId.about) <
      (mainTrace templateDir none).indexOf (MainEvent.listenAndServe portNumber) :=
  c10_init_precedes_exposure templateDir none homeAboutApp.TemplateCache rfl

end BedAndBreakfast
